import Mathlib

/-!
Verification of the finance-chat-bot backend orchestration layer.

The development shallowly embeds the two source files:
* `src/index.ts` — the `main` entry point: allow-list parsing, required
  environment-variable validation, the `onMessage` routing closure, and the
  top-level `unhandledRejection` handler.
* `src/bot/whatsapp.ts` — the `WhatsAppBot` class: the `connection.update`
  disconnect/reconnect policy, the `messages.upsert` inbound batch handler,
  and the `sendMessage` / `reply` outbound primitives.

JavaScript string operations (`split`, `trim`, truthiness-based `filter`,
`includes`) are modelled by executable functions over `List Char` so that
every concrete instance evaluates inside the kernel.  The external message
interpreter (`MessageHandler.handleMessage`) is a black-box parameter of type
`String → Except String String`: `Except.error e` models a thrown exception
with message `e`, `Except.ok r` a returned reply text, exactly as the spec
treats the handler as an external collaborator.
-/

/-- JS `String.prototype.split` with a one-character separator, accumulator
form: walks the character list, cutting at each separator occurrence.
`"".split(sep)` yields `[""]`, and adjacent separators yield empty fields,
matching JavaScript. -/
def jsSplitAux (sep : Char) : List Char → List Char → List (List Char)
  | [], acc => [acc.reverse]
  | c :: cs, acc =>
    if c = sep then acc.reverse :: jsSplitAux sep cs []
    else jsSplitAux sep cs (c :: acc)

/-- JS `s.split(sep)` for a single-character separator. -/
def jsSplit (sep : Char) (s : String) : List String :=
  (jsSplitAux sep s.data []).map String.mk

/-- Drop leading whitespace characters from a character list. -/
def dropLeadingWs : List Char → List Char
  | [] => []
  | c :: cs => if c.isWhitespace then dropLeadingWs cs else c :: cs

/-- JS `s.trim()`: removes whitespace from both ends of the string. -/
def jsTrim (s : String) : String :=
  String.mk ((dropLeadingWs ((dropLeadingWs s.data).reverse)).reverse)

/-- `pat` occurs as a contiguous sublist of the second argument: the model of
JS `String.prototype.includes`. -/
def listHasSub (pat : List Char) : List Char → Bool
  | [] => pat.isEmpty
  | c :: t => pat.isPrefixOf (c :: t) || listHasSub pat t

/-- JS `s.includes(pat)`. -/
def strIncludes (s pat : String) : Bool :=
  listHasSub pat.data s.data

/-- A process environment: each variable name maps to `some value` when set,
`none` when unset (`process.env[name] === undefined`). -/
abbrev Env := String → Option String

/-- `src/index.ts` lines 25–28:
`process.env.ALLOWED_CHATS?.split(',').map((c) => c.trim()).filter((c) => c) || []`.
When the variable is unset, optional chaining short-circuits to `undefined`
and `|| []` supplies the empty list; when it is set, the split/trim/filter
chain always produces an array (truthy even when empty), so `|| []` is not
taken. `.filter((c) => c)` keeps exactly the non-empty strings. -/
def allowedChatsStartup (v : Option String) : List String :=
  match v with
  | none => []
  | some s => ((jsSplit ',' s).map jsTrim).filter (fun c => c != "")

/-- `src/bot/whatsapp.ts` line 116, inside the `messages.upsert` handler:
`process.env.ALLOWED_CHATS?.split(',').map(c => c.trim()).filter(c => c) || []`
— re-parsed from the process environment on every inbound message. -/
def allowedChatsHandler (v : Option String) : List String :=
  match v with
  | none => []
  | some s => ((jsSplit ',' s).map jsTrim).filter (fun c => c != "")

/-- `src/index.ts` lines 15–22: the `requiredEnvVars` array. -/
def requiredEnvVars : List String :=
  ["GOOGLE_PROJECT_ID", "GOOGLE_CLIENT_EMAIL", "GOOGLE_PRIVATE_KEY",
   "SHEET_ID", "BOT_PHONE_NUMBER", "ALLOWED_CHATS"]

/-- JS falsiness of `process.env[varName]`: `undefined` and the empty string
are falsy, every other string is truthy (`!process.env[varName]`). -/
def envFalsy : Option String → Bool
  | none => true
  | some s => s == ""

/-- `src/index.ts` line 43:
`requiredEnvVars.filter((varName) => !process.env[varName])`. -/
def missingVars (env : Env) : List String :=
  requiredEnvVars.filter (fun v => envFalsy (env v))

/-- The observable outcome of `main()` in `src/index.ts`.  The function first
parses and checks the allow-list (lines 25–41), then checks `missingVars`
(lines 43–50), and only then constructs the bot and calls `bot.connect`
(lines 52–74). -/
inductive MainOutcome where
  /-- Line 40: `throw new Error('Nenhum chat autorizado configurado em
  ALLOWED_CHATS')`.  The throw happens inside the async `main` but outside
  its `try` block, so it surfaces as a rejected promise of the top-level
  `main()` call. -/
  | threwNoAllowedChats
  /-- Lines 45–50: every missing variable is printed, then
  `process.exit(1)`. The payload is the full printed list. -/
  | exitedMissingVars (missing : List String)
  /-- Lines 52–74: validation passed; `bot.connect(onMessage)` is awaited
  (the only place a connection attempt is made). -/
  | startedBot (allowedChats : List String)
deriving DecidableEq

/-- `src/index.ts` `main()`, lines 11–79, up to the connection attempt.
(Named `mainStartup` because Lean reserves `main` for program entry points.) -/
def mainStartup (env : Env) : MainOutcome :=
  let allowedChats := allowedChatsStartup (env "ALLOWED_CHATS")
  if allowedChats.isEmpty then MainOutcome.threwNoAllowedChats
  else
    let missing := missingVars env
    if missing.isEmpty then MainOutcome.startedBot allowedChats
    else MainOutcome.exitedMissingVars missing

/-- `main` reached `process.exit(1)` on the missing-variables path.  (The
`startedBot` path can still exit 1 later if `connect` throws; the
empty-allow-list path never does.) -/
def exitsWithCodeOne : MainOutcome → Bool
  | MainOutcome.exitedMissingVars _ => true
  | _ => false

/-- `main` reached `bot.connect` — a connection attempt was made. -/
def attemptsConnection : MainOutcome → Bool
  | MainOutcome.startedBot _ => true
  | _ => false

/-- The error message thrown at `src/index.ts` line 40. -/
def noAllowedChatsMsg : String :=
  "Nenhum chat autorizado configurado em ALLOWED_CHATS"

/-- `src/index.ts` lines 83–88: the transient WhatsApp decryption errors the
top-level handlers suppress silently. -/
def isKnownTransientError (msg : String) : Bool :=
  strIncludes msg "Bad MAC" || strIncludes msg "decrypt" ||
    strIncludes msg "Session error"

/-- What the `process.on('unhandledRejection')` handler does with a rejection
whose message is given.  Neither branch calls `process.exit`. -/
inductive RejectionAction where
  /-- Matched a known transient pattern: suppressed silently. -/
  | suppressed
  /-- Logged via `console.error`; the process keeps running. -/
  | loggedNoExit
deriving DecidableEq

/-- `src/index.ts` lines 82–91. -/
def onUnhandledRejection (msg : String) : RejectionAction :=
  if isKnownTransientError msg then RejectionAction.suppressed
  else RejectionAction.loggedNoExit

/-- The spec's `ConnectionState` enum (§3), as observed through the protocol
session's `connection.update` events. -/
inductive ConnState where
  | disconnected
  | connecting
  | awaitingPairing
  | connOpen
  | closed
deriving DecidableEq

/-- The state of a `WhatsAppBot` instance relevant to the outbound
primitives: whether `this.sock` is non-null (it is assigned by `makeWASocket`
inside `connect` and never reset to null), and the current observable
connection state. -/
structure BotState where
  sockExists : Bool
  connState : ConnState
deriving DecidableEq

/-- Reachable bot states: `this.sock` is assigned inside `connect()` before
any `connection.update` event can fire, so every state other than the
initial `disconnected` one has a non-null socket. -/
def BotState.reachable (st : BotState) : Prop :=
  st.connState ≠ ConnState.disconnected → st.sockExists = true

/-- Outcome of one outbound call: whether `this.sock.sendMessage` was
invoked (an outbound send was attempted), and the error propagated to the
caller, if any.  `thrown = some m` models a thrown/rejected `Error` with
message `m`. -/
structure SendResult where
  attempted : Bool
  thrown : Option String
deriving DecidableEq

/-- The message of the `Error` thrown when `this.sock` is null. -/
def notConnectedMsg : String := "Bot não está conectado"

/-- `WhatsAppBot.sendMessage`, `src/bot/whatsapp.ts` lines 162–173.
`transport` is the outcome of the underlying `this.sock.sendMessage` call:
`Except.error e` a transport-level failure.  The guard tests only
`this.sock`; the `catch` block logs and deliberately does not rethrow. -/
def sendMessage (st : BotState) (transport : Except String Unit) : SendResult :=
  if st.sockExists = false then ⟨false, some notConnectedMsg⟩
  else
    match transport with
    | Except.ok _ => ⟨true, none⟩
    | Except.error _ => ⟨true, none⟩

/-- `WhatsAppBot.reply`, `src/bot/whatsapp.ts` lines 178–186: same null-sock
guard, but the `await this.sock.sendMessage(...)` is not wrapped in
`try`/`catch`, so a transport failure propagates. -/
def reply (st : BotState) (transport : Except String Unit) : SendResult :=
  if st.sockExists = false then ⟨false, some notConnectedMsg⟩
  else
    match transport with
    | Except.ok _ => ⟨true, none⟩
    | Except.error e => ⟨true, some e⟩

/-- Baileys `DisconnectReason.loggedOut` (HTTP-style status code 401), the
single terminal disconnect reason. -/
def loggedOut : Nat := 401

/-- `src/bot/whatsapp.ts` line 85:
`statusCode !== DisconnectReason.loggedOut`.  `statusCode` is `none` when
`lastDisconnect?.error` carries no Boom status (undefined compares unequal
to the enum value, hence retryable). -/
def shouldReconnect (statusCode : Option Nat) : Bool :=
  statusCode != some loggedOut

/-- The fixed reconnect delay of `src/bot/whatsapp.ts` line 96. -/
def reconnectDelayMs : Nat := 5000

/-- What the `connection.update` handler does on `connection === 'close'`. -/
inductive CloseAction where
  /-- One `setTimeout(() => this.connect(onMessage), delay)` is scheduled. -/
  | reconnectAfter (delayMs : Nat)
  /-- Terminal: log only, no reconnect scheduled. -/
  | stop
deriving DecidableEq

/-- `src/bot/whatsapp.ts` lines 83–100: the `connection === 'close'` branch
of the `connection.update` handler. -/
def onConnectionClose (statusCode : Option Nat) : CloseAction :=
  if shouldReconnect statusCode then CloseAction.reconnectAfter reconnectDelayMs
  else CloseAction.stop

/-- Number of `connect()` invocations the close handler schedules. -/
def reconnectInvocations : CloseAction → Nat
  | CloseAction.reconnectAfter _ => 1
  | CloseAction.stop => 0

/-- `msg.key` of a Baileys `WAMessage`: `fromMe` and `remoteJid`.  The code
reads `msg.key.remoteJid!` (non-null assertion), so the model keeps it a
plain string. -/
structure WAKey where
  fromMe : Bool
  remoteJid : String
deriving DecidableEq

/-- The fields of `msg.message` the handler reads: `conversation` and
`extendedTextMessage?.text`. -/
structure WAContent where
  conversation : Option String
  extendedTextMessageText : Option String
deriving DecidableEq

/-- A Baileys `WAMessage` as consumed by the `messages.upsert` handler:
`message` is `none` for notifications/status updates (line 110's
`if (!msg.message) continue`). -/
structure WAMessage where
  key : WAKey
  message : Option WAContent
deriving DecidableEq

/-- JS `a || b` on strings: the empty string is falsy. -/
def jsOrStr (a b : String) : String :=
  if a = "" then b else a

/-- `src/bot/whatsapp.ts` lines 136–139:
`msg.message.conversation || msg.message.extendedTextMessage?.text || ''`. -/
def extractText (c : WAContent) : String :=
  jsOrStr (c.conversation.getD "") (c.extendedTextMessageText.getD "")

/-- One completed handler invocation inside the `messages.upsert` loop
(lines 144–148): `onMessage(from, messageText)` either returned (after
`bot.sendMessage(from, response)` — whose transport failures are swallowed,
so `onMessage` resolves) or threw, in which case the `catch` logged the
error and the loop moved on.  Skipped messages (own, contentless, blank
text) leave no record; an unauthorized sender aborts the whole handler via
`return`, so it leaves no record either. -/
inductive MsgResult where
  /-- `onMessage` resolved: `handleMessage text = ok response` and exactly
  one `sendMessage sender response` was attempted. -/
  | handledOk (sender text response : String)
  /-- `handleMessage text` threw `errMsg`: caught at lines 146–148, logged,
  no reply sent. -/
  | handledErr (sender text errMsg : String)
deriving DecidableEq

/-- The `messages.upsert` handler, `src/bot/whatsapp.ts` lines 104–151.
`hm` is the external `MessageHandler.handleMessage`; `allowedEnv` the value
of `process.env.ALLOWED_CHATS` at the moment the batch is processed (the
handler re-reads it per message).  Faithful to the source, the unauthorized
branch uses `return` — not `continue` — terminating the loop over the whole
batch. -/
def messagesUpsert (hm : String → Except String String)
    (allowedEnv : Option String) : List WAMessage → List MsgResult
  | [] => []
  | msg :: rest =>
    if msg.key.fromMe then messagesUpsert hm allowedEnv rest
    else
      match msg.message with
      | none => messagesUpsert hm allowedEnv rest
      | some content =>
        let sender := msg.key.remoteJid
        let allowedChats := allowedChatsHandler allowedEnv
        if 0 < allowedChats.length && !(allowedChats.contains sender) then
          []
        else
          let messageText := extractText content
          if messageText = "" then messagesUpsert hm allowedEnv rest
          else
            match hm messageText with
            | Except.ok response =>
              MsgResult.handledOk sender messageText response ::
                messagesUpsert hm allowedEnv rest
            | Except.error e =>
              MsgResult.handledErr sender messageText e ::
                messagesUpsert hm allowedEnv rest

/-- The handler invocations recorded in a result list: each entry is exactly
one `onMessage(sender, text)` call. -/
def handlerCalls (rs : List MsgResult) : List (String × String) :=
  rs.map fun r =>
    match r with
    | MsgResult.handledOk s t _ => (s, t)
    | MsgResult.handledErr s t _ => (s, t)

/-- The replies attempted for one result: `onMessage` (index.ts lines 58–68)
calls `bot.sendMessage(from, response)` only after `handleMessage` resolves,
so a throwing invocation sends nothing. -/
def MsgResult.sends : MsgResult → List (String × String)
  | MsgResult.handledOk s _ r => [(s, r)]
  | MsgResult.handledErr _ _ _ => []

/-- All replies attempted while processing a batch. -/
def batchSends (rs : List MsgResult) : List (String × String) :=
  (rs.map MsgResult.sends).flatten

/-- A handler usable in concrete evaluations: echoes its input. -/
def echoHandler : String → Except String String :=
  fun t => Except.ok t

/-- A handler usable in concrete evaluations: always throws. -/
def throwingHandler : String → Except String String :=
  fun _ => Except.error "boom"

/-- A configuration whose allow-list value trims/filters to the empty list
while every other required variable is set. -/
def envEmptyAllow : Env :=
  fun v => if v = "ALLOWED_CHATS" then some " , " else some "set"

/-- A configuration in which exactly `ALLOWED_CHATS` is unset. -/
def envMissingAllow : Env :=
  fun v => if v = "ALLOWED_CHATS" then none else some "set"

/-- A configuration with a valid allow-list but two other required
variables unset. -/
def envTwoMissing : Env :=
  fun v =>
    if v = "GOOGLE_PROJECT_ID" || v = "SHEET_ID" then none
    else some "1234@g.us"

/-- An inbound message from an unauthorized sender (spec §8 example). -/
def mUnauth : WAMessage :=
  ⟨⟨false, "5555@g.us"⟩, some ⟨some "hi", none⟩⟩

/-- An inbound message from the authorized sender of the spec §8 example,
with text "hello". -/
def mAuth : WAMessage :=
  ⟨⟨false, "1234@g.us"⟩, some ⟨some "hello", none⟩⟩

/-- An inbound message from sender `b@g.us` with text "hello". -/
def mFromB : WAMessage :=
  ⟨⟨false, "b@g.us"⟩, some ⟨some "hello", none⟩⟩

/-- Claim C10 — the startup parse (`src/index.ts` lines 25–28) and the
per-event parse (`src/bot/whatsapp.ts` line 116) of the allow-list variable
are the same function: for every value of `ALLOWED_CHATS` (including unset)
they produce the same list of chat identifiers. -/
theorem c10_parse_equivalence (v : Option String) :
    allowedChatsStartup v = allowedChatsHandler v := rfl

/-- Claim C1 (amended) — whenever the allow-list resolves to the empty list
after trimming and filtering blank entries, `main` throws before any
connection attempt; the thrown error surfaces as an unhandled promise
rejection which the top-level handler only logs, so this path does not
reach `process.exit(1)`. -/
theorem c1_empty_allowlist_throws (env : Env)
    (h : allowedChatsStartup (env "ALLOWED_CHATS") = []) :
    mainStartup env = MainOutcome.threwNoAllowedChats
    ∧ exitsWithCodeOne (mainStartup env) = false
    ∧ attemptsConnection (mainStartup env) = false
    ∧ onUnhandledRejection noAllowedChatsMsg = RejectionAction.loggedNoExit := by
  have hm : mainStartup env = MainOutcome.threwNoAllowedChats := by
    simp [mainStartup, h]
  refine ⟨hm, ?_, ?_, ?_⟩
  · rw [hm]; rfl
  · rw [hm]; rfl
  · decide

/-- Witness for `c1_empty_allowlist_throws` at the configuration
`envEmptyAllow` (allow-list `" , "`). -/
theorem c1_empty_allowlist_throws_witness :
    mainStartup envEmptyAllow = MainOutcome.threwNoAllowedChats
    ∧ exitsWithCodeOne (mainStartup envEmptyAllow) = false
    ∧ attemptsConnection (mainStartup envEmptyAllow) = false
    ∧ onUnhandledRejection noAllowedChatsMsg = RejectionAction.loggedNoExit :=
  c1_empty_allowlist_throws envEmptyAllow (by decide)

/-- Claim C1 counterexample — at `envEmptyAllow` the allow-list is empty,
yet `main` does not exit with code 1 (it throws, and the rejection handler
never exits): the claim's required `exit(1)` does not happen.  (The "before
any connection attempt" half does hold.) -/
theorem c1_counterexample :
    allowedChatsStartup (envEmptyAllow "ALLOWED_CHATS") = []
    ∧ exitsWithCodeOne (mainStartup envEmptyAllow) = false
    ∧ attemptsConnection (mainStartup envEmptyAllow) = false := by
  decide

/-- Claim C9 (amended) — when the allow-list parses non-empty and at least
one required variable is unset or blank, `main` exits with code 1 carrying
the complete list of missing variables, and that list contains every
missing required key (not just the first). -/
theorem c9_missing_vars_exit (env : Env)
    (hA : allowedChatsStartup (env "ALLOWED_CHATS") ≠ [])
    (hM : missingVars env ≠ []) :
    mainStartup env = MainOutcome.exitedMissingVars (missingVars env)
    ∧ ∀ v ∈ requiredEnvVars, envFalsy (env v) = true → v ∈ missingVars env := by
  constructor
  · simp [mainStartup, hA, hM]
  · intro v hv hfv
    exact List.mem_filter.mpr ⟨hv, hfv⟩

/-- Witness for `c9_missing_vars_exit` at `envTwoMissing`: both unset
variables are printed. -/
theorem c9_missing_vars_exit_witness :
    mainStartup envTwoMissing = MainOutcome.exitedMissingVars (missingVars envTwoMissing)
    ∧ missingVars envTwoMissing = ["GOOGLE_PROJECT_ID", "SHEET_ID"] :=
  ⟨(c9_missing_vars_exit envTwoMissing (by decide) (by decide)).1, by decide⟩

/-- Claim C9 counterexample — the configuration `envMissingAllow` is missing
exactly the required key `ALLOWED_CHATS`, but startup throws at the earlier
empty-allow-list check: no `process.exit(1)` is reached and the missing-key
list is never printed, contradicting the claim for this configuration. -/
theorem c9_counterexample :
    missingVars envMissingAllow = ["ALLOWED_CHATS"]
    ∧ mainStartup envMissingAllow = MainOutcome.threwNoAllowedChats
    ∧ exitsWithCodeOne (mainStartup envMissingAllow) = false := by
  decide

/-- Claim C5 — a disconnect reason is terminal exactly when it is the
logged-out status code; every other reason schedules exactly one `connect()`
re-invocation after the fixed 5000 ms delay, and the terminal reason
schedules none. -/
theorem c5_reconnect_policy (sc : Option Nat) :
    (onConnectionClose sc = CloseAction.stop ↔ sc = some loggedOut)
    ∧ (sc ≠ some loggedOut →
        onConnectionClose sc = CloseAction.reconnectAfter reconnectDelayMs
        ∧ reconnectInvocations (onConnectionClose sc) = 1)
    ∧ (sc = some loggedOut →
        reconnectInvocations (onConnectionClose sc) = 0) := by
  by_cases h : sc = some loggedOut
  · subst h
    refine ⟨by simp [onConnectionClose, shouldReconnect], ?_, ?_⟩
    · intro hne; exact absurd rfl hne
    · intro _; decide
  · have hr : shouldReconnect sc = true := by
      simp [shouldReconnect, bne_iff_ne, h]
    refine ⟨?_, ?_, ?_⟩
    · constructor
      · intro hstop
        simp [onConnectionClose, hr] at hstop
      · intro he; exact absurd he h
    · intro _
      simp [onConnectionClose, hr, reconnectInvocations]
    · intro he; exact absurd he h

/-- Witness for `c5_reconnect_policy`: status 408 (retryable) reconnects
once after 5000 ms; status 401 (logged out) schedules no reconnect. -/
theorem c5_reconnect_policy_witness :
    (onConnectionClose (some 408) = CloseAction.reconnectAfter 5000
      ∧ reconnectInvocations (onConnectionClose (some 408)) = 1)
    ∧ reconnectInvocations (onConnectionClose (some 401)) = 0 :=
  ⟨(c5_reconnect_policy (some 408)).2.1 (by decide),
   (c5_reconnect_policy (some 401)).2.2 rfl⟩

/-- Claim C8 — with a socket present, a transport-level failure inside
`sendMessage` is swallowed (the call returns normally after logging), while
the same failure inside `reply` propagates to the caller. -/
theorem c8_send_reply_asymmetry (st : BotState) (e : String)
    (h : st.sockExists = true) :
    sendMessage st (Except.error e) = ⟨true, none⟩
    ∧ reply st (Except.error e) = ⟨true, some e⟩ := by
  constructor <;> simp [sendMessage, reply, h]

/-- Witness for `c8_send_reply_asymmetry` on an open connection. -/
theorem c8_send_reply_asymmetry_witness :
    sendMessage ⟨true, ConnState.connOpen⟩ (Except.error "transport failure")
      = ⟨true, none⟩
    ∧ reply ⟨true, ConnState.connOpen⟩ (Except.error "transport failure")
      = ⟨true, some "transport failure"⟩ :=
  c8_send_reply_asymmetry ⟨true, ConnState.connOpen⟩ "transport failure" rfl

/-- Claim C2 (amended) — `sendMessage` fails fast with the not-connected
error exactly when no socket exists (i.e. `connect()` has never run); once a
socket exists the send is attempted regardless of connection state and
nothing is thrown (transport failures are swallowed).  In particular on
every reachable state whose connection is open, the send is attempted. -/
theorem c2_sock_guard (st : BotState) (t : Except String Unit) :
    (st.sockExists = false →
      sendMessage st t = ⟨false, some notConnectedMsg⟩)
    ∧ (st.sockExists = true →
      (sendMessage st t).attempted = true ∧ (sendMessage st t).thrown = none)
    ∧ (st.reachable → st.connState = ConnState.connOpen →
      (sendMessage st t).attempted = true) := by
  obtain ⟨se, cs⟩ := st
  refine ⟨?_, ?_, ?_⟩
  · intro hse; subst hse; rfl
  · intro hse; subst hse
    cases t <;> exact ⟨rfl, rfl⟩
  · intro hreach hcs
    have hse : se = true := by
      apply hreach
      rw [hcs]
      intro hcontra
      exact ConnState.noConfusion hcontra
    subst hse
    cases t <;> rfl

/-- Witness for `c2_sock_guard`: before `connect()` the call throws the
not-connected error, and on an open connection the send is attempted. -/
theorem c2_sock_guard_witness :
    sendMessage ⟨false, ConnState.disconnected⟩ (Except.ok ())
      = ⟨false, some notConnectedMsg⟩
    ∧ (sendMessage ⟨true, ConnState.connOpen⟩ (Except.ok ())).attempted = true :=
  ⟨(c2_sock_guard ⟨false, ConnState.disconnected⟩ (Except.ok ())).1 rfl,
   ((c2_sock_guard ⟨true, ConnState.connOpen⟩ (Except.ok ())).2.1 rfl).1⟩

/-- Claim C2 counterexample — in the reachable state "socket exists,
connection closed" (a connection was established and then dropped), the
connection state is not `Open`, yet `sendMessage` does not fail with the
not-connected error: the outbound send is attempted and nothing is thrown,
because the guard tests only `this.sock !== null`, not the connection
state. -/
theorem c2_counterexample :
    (BotState.mk true ConnState.closed).connState ≠ ConnState.connOpen
    ∧ BotState.reachable ⟨true, ConnState.closed⟩
    ∧ (sendMessage ⟨true, ConnState.closed⟩ (Except.ok ())).attempted = true
    ∧ (sendMessage ⟨true, ConnState.closed⟩ (Except.ok ())).thrown = none := by
  refine ⟨by decide, ?_, by decide, by decide⟩
  intro _
  rfl

/-- Claim C3 — with allow-list `1234@g.us`, a batch whose first message
comes from the unauthorized `5555@g.us` produces no results at all: the
`return` in the unauthorized branch aborts the whole `messages.upsert`
callback, so the authorized second message is never filtered or processed —
even though the same message alone is processed normally. -/
theorem c3_return_aborts_batch :
    messagesUpsert echoHandler (some "1234@g.us") [mUnauth, mAuth] = []
    ∧ messagesUpsert echoHandler (some "1234@g.us") [mAuth]
        = [MsgResult.handledOk "1234@g.us" "hello" "hello"]
    ∧ handlerCalls (messagesUpsert echoHandler (some "1234@g.us") [mUnauth, mAuth])
        = [] := by
  decide

/-- Claim C4 counterexample — the same inbound message from `b@g.us`, under
the same startup allow-list value `"a@g.us"`, is rejected or accepted
depending solely on what `ALLOWED_CHATS` holds in the process environment
when the event arrives: with the environment unchanged it is rejected, with
the environment mutated to `"b@g.us"` it is accepted, although `b@g.us` is
not in the startup-computed allow-list.  The filter's decision therefore
does not depend only on the allow-list value computed at startup. -/
theorem c4_counterexample :
    messagesUpsert echoHandler (some "a@g.us") [mFromB] = []
    ∧ messagesUpsert echoHandler (some "b@g.us") [mFromB]
        = [MsgResult.handledOk "b@g.us" "hello" "hello"]
    ∧ (allowedChatsStartup (some "a@g.us")).contains "b@g.us" = false := by
  decide

/-- Claim C4 (amended) — the allow-list is re-parsed from the process
environment on every inbound event by exactly the parse used at startup, so
the filter's decision depends on the environment value at the time the
event arrives; whenever that value is unchanged since startup, the decision
coincides with the one derived from the startup-computed allow-list. -/
theorem c4_event_env_decides (hm : String → Except String String)
    (eStart eEvt : Option String) (m : WAMessage)
    (h : eEvt = eStart) :
    allowedChatsHandler eEvt = allowedChatsStartup eStart
    ∧ messagesUpsert hm eEvt [m] = messagesUpsert hm eStart [m] := by
  subst h
  exact ⟨rfl, rfl⟩

/-- Witness for `c4_event_env_decides` with an unchanged environment. -/
theorem c4_event_env_decides_witness :
    allowedChatsHandler (some "a@g.us") = allowedChatsStartup (some "a@g.us")
    ∧ messagesUpsert echoHandler (some "a@g.us") [mFromB]
        = messagesUpsert echoHandler (some "a@g.us") [mFromB] :=
  c4_event_env_decides echoHandler (some "a@g.us") (some "a@g.us") mFromB rfl

/-- Claim C6 — for a single inbound event that is not from self, has content
and non-empty extracted text, under a non-empty allow-list: if the sender is
in the allow-list the event triggers exactly one handler invocation carrying
the event's text, and if the sender is absent the batch produces no handler
invocation and no reply. -/
theorem c6_filter_accept (hm : String → Except String String)
    (envA : Option String) (m : WAMessage) (c : WAContent)
    (hself : m.key.fromMe = false) (hc : m.message = some c)
    (htext : extractText c ≠ "") (hne : allowedChatsHandler envA ≠ []) :
    (m.key.remoteJid ∈ allowedChatsHandler envA →
      handlerCalls (messagesUpsert hm envA [m])
        = [(m.key.remoteJid, extractText c)])
    ∧ (m.key.remoteJid ∉ allowedChatsHandler envA →
      messagesUpsert hm envA [m] = []
      ∧ batchSends (messagesUpsert hm envA [m]) = []) := by
  have hlen : 0 < (allowedChatsHandler envA).length :=
    List.length_pos.mpr hne
  constructor
  · intro hin
    cases hrm : hm (extractText c) with
    | ok r =>
      simp [messagesUpsert, hself, hc, hin, htext, hlen, hrm, handlerCalls]
    | error e =>
      simp [messagesUpsert, hself, hc, hin, htext, hlen, hrm, handlerCalls]
  · intro hout
    simp [messagesUpsert, hself, hc, hout, hlen, batchSends]

/-- Witness for `c6_filter_accept`: the spec §8 example.  With allow-list
`1234@g.us`, the message from `1234@g.us` with text `hello` yields exactly
one handler invocation `("1234@g.us", "hello")`, and the message from
`5555@g.us` yields no invocation and no reply. -/
theorem c6_filter_accept_witness :
    handlerCalls (messagesUpsert echoHandler (some "1234@g.us") [mAuth])
      = [("1234@g.us", "hello")]
    ∧ (messagesUpsert echoHandler (some "1234@g.us") [mUnauth] = []
      ∧ batchSends (messagesUpsert echoHandler (some "1234@g.us") [mUnauth]) = []) :=
  ⟨(c6_filter_accept echoHandler (some "1234@g.us") mAuth ⟨some "hello", none⟩
      rfl rfl (by decide) (by decide)).1 (by decide),
   (c6_filter_accept echoHandler (some "1234@g.us") mUnauth ⟨some "hi", none⟩
      rfl rfl (by decide) (by decide)).2 (by decide)⟩

/-- Claim C7 — an accepted message whose handler invocation throws is
recorded as a caught-and-logged failure: no reply is attempted for it, and
the remaining messages of the batch are processed exactly as they would be
on their own. -/
theorem c7_handler_error_isolated (hm : String → Except String String)
    (envA : Option String) (m : WAMessage) (c : WAContent)
    (rest : List WAMessage) (e : String)
    (hself : m.key.fromMe = false) (hc : m.message = some c)
    (htext : extractText c ≠ "")
    (hallow : allowedChatsHandler envA = []
      ∨ m.key.remoteJid ∈ allowedChatsHandler envA)
    (herr : hm (extractText c) = Except.error e) :
    messagesUpsert hm envA (m :: rest)
      = MsgResult.handledErr m.key.remoteJid (extractText c) e
          :: messagesUpsert hm envA rest
    ∧ MsgResult.sends (MsgResult.handledErr m.key.remoteJid (extractText c) e) = []
    ∧ batchSends (messagesUpsert hm envA (m :: rest))
        = batchSends (messagesUpsert hm envA rest) := by
  have hmain : messagesUpsert hm envA (m :: rest)
      = MsgResult.handledErr m.key.remoteJid (extractText c) e
          :: messagesUpsert hm envA rest := by
    rcases hallow with hempty | hin
    · simp [messagesUpsert, hself, hc, hempty, htext, herr]
    · simp [messagesUpsert, hself, hc, hin, htext, herr]
  refine ⟨hmain, rfl, ?_⟩
  rw [hmain]
  simp [batchSends, MsgResult.sends]

/-- Witness for `c7_handler_error_isolated`: a two-message batch from the
authorized sender under a throwing handler — the first invocation's failure
is caught, sends nothing, and leaves the tail to be processed normally. -/
theorem c7_handler_error_isolated_witness :
    messagesUpsert throwingHandler (some "1234@g.us") [mAuth, mAuth]
      = MsgResult.handledErr "1234@g.us" "hello" "boom"
          :: messagesUpsert throwingHandler (some "1234@g.us") [mAuth]
    ∧ MsgResult.sends (MsgResult.handledErr "1234@g.us" "hello" "boom") = []
    ∧ batchSends (messagesUpsert throwingHandler (some "1234@g.us") [mAuth, mAuth])
        = batchSends (messagesUpsert throwingHandler (some "1234@g.us") [mAuth]) :=
  c7_handler_error_isolated throwingHandler (some "1234@g.us") mAuth
    ⟨some "hello", none⟩ [mAuth] "boom" rfl rfl (by decide)
    (Or.inr (by decide)) rfl
